import Mathlib

/-!
# nvml_info : dynamic binding table and device/process query walker

A shallow embedding of `nvml_info.cpp`.

* The vendor library is a black box with a state of type `σ`.  A C function of the
  library is a function of its by-value arguments, of the current contents of the
  memory behind its pointer arguments (its output parameters) and of the library
  state; it yields a return value, the new contents of the output parameters and
  the new library state.  A call may write its output parameters whatever status
  it returns.
* A function pointer is an `Option`: `none` is `NULL`.  Calling through `NULL`,
  and reading an array element that is out of bounds or was never written, have
  no defined behaviour: the embedding yields `none` there.
* `World` carries what the program can affect outside its own variables: the
  library state, the ordered record of the table entries it called, the lines it
  printed, and the handles it passed to `dlclose`.
-/

namespace NvmlInfo

/-! ## Types of `nvml_header.h` -/

/-- Modelled from the spec: `nvml_header.h` is not among the sources.  Every library
function returns a status code where one value means success and all others are
failures; the status is an unsigned enumeration value. -/
abbrev nvmlReturn_t := Nat

/-- Modelled from the spec: the status value that means success.  The source tests
success both as `ret == NVML_SUCCESS` and as `!ret`, so the value is `0`. -/
def NVML_SUCCESS : nvmlReturn_t := 0

/-- A device handle; `none` is the indeterminate value of an uninitialised handle. -/
abbrev nvmlDevice_t := Option Nat

/-- Modelled from the spec: BAR1 memory usage/total counters (`nvml_header.h` is
absent); three `unsigned long long` counters. -/
structure nvmlBAR1Memory_t where
  bar1Total : Nat
  bar1Free : Nat
  bar1Used : Nat
deriving DecidableEq, Repr

/-- Modelled from the spec: general device memory usage/total counters
(`nvml_header.h` is absent); three `unsigned long long` counters. -/
structure nvmlMemory_t where
  total : Nat
  free : Nat
  used : Nat
deriving DecidableEq, Repr

/-- Modelled from the spec: one element of the bounded process array a
running-process query fills (`nvml_header.h` is absent). -/
structure nvmlProcessInfo_t where
  pid : Nat
  usedGpuMemory : Nat
deriving DecidableEq, Repr

/-! ## Structs of `nvml_info.cpp` -/

/-- The struct `nvgpu_processinfo_t`; `char name[ 80 ] = { 0 }` is the empty string. -/
structure nvgpu_processinfo_t where
  name : String
  pid : Nat
  usedGpuMemory : Nat
deriving DecidableEq, Repr

/-- A default-constructed `nvgpu_processinfo_t`. -/
def nvgpu_processinfo_t.fresh : nvgpu_processinfo_t := ⟨"", 0, 0⟩

/-- The struct `nvgpu_devinfo_t`. -/
structure nvgpu_devinfo_t where
  bar1mem : nvmlBAR1Memory_t
  meminfo : nvmlMemory_t
  gpu_processinfos : List nvgpu_processinfo_t
  compute_processinfos : List nvgpu_processinfo_t
deriving DecidableEq, Repr

/-- A default-constructed `nvgpu_devinfo_t`: both counters `{ 0 }`, both vectors empty. -/
def nvgpu_devinfo_t.fresh : nvgpu_devinfo_t := ⟨⟨0, 0, 0⟩, ⟨0, 0, 0⟩, [], []⟩

/-- The struct `nvgpu_info_t`. -/
structure nvgpu_info_t where
  driver_version : String
  nvml_version : String
  cuda_version : Int
  devinfos : List nvgpu_devinfo_t
deriving DecidableEq, Repr

/-- A default-constructed `nvgpu_info_t`. -/
def nvgpu_info_t.fresh : nvgpu_info_t := ⟨"", "", 0, []⟩

/-! ## The catalog of hooked functions and the function table -/

/-- The members of `nvml_functions_t` that `nvml_info.cpp` refers to.  The catalog
file `nvml_hook_funcs.inl` is not among the sources; these are the names the
program uses. -/
inductive hook_func where
  | nvmlInit
  | nvmlInit_v2
  | nvmlShutdown
  | nvmlErrorString
  | nvmlSystemGetNVMLVersion
  | nvmlSystemGetDriverVersion
  | nvmlSystemGetCudaDriverVersion
  | nvmlSystemGetCudaDriverVersion_v2
  | nvmlSystemGetProcessName
  | nvmlDeviceGetCount
  | nvmlDeviceGetHandleByIndex
  | nvmlDeviceGetBAR1MemoryInfo
  | nvmlDeviceGetMemoryInfo
  | nvmlDeviceGetGraphicsRunningProcesses
  | nvmlDeviceGetComputeRunningProcesses
deriving DecidableEq, Repr

open hook_func

/-- The stringised name `#_func` of a hooked function. -/
def hook_func.name : hook_func → String
  | nvmlInit => "nvmlInit"
  | nvmlInit_v2 => "nvmlInit_v2"
  | nvmlShutdown => "nvmlShutdown"
  | nvmlErrorString => "nvmlErrorString"
  | nvmlSystemGetNVMLVersion => "nvmlSystemGetNVMLVersion"
  | nvmlSystemGetDriverVersion => "nvmlSystemGetDriverVersion"
  | nvmlSystemGetCudaDriverVersion => "nvmlSystemGetCudaDriverVersion"
  | nvmlSystemGetCudaDriverVersion_v2 => "nvmlSystemGetCudaDriverVersion_v2"
  | nvmlSystemGetProcessName => "nvmlSystemGetProcessName"
  | nvmlDeviceGetCount => "nvmlDeviceGetCount"
  | nvmlDeviceGetHandleByIndex => "nvmlDeviceGetHandleByIndex"
  | nvmlDeviceGetBAR1MemoryInfo => "nvmlDeviceGetBAR1MemoryInfo"
  | nvmlDeviceGetMemoryInfo => "nvmlDeviceGetMemoryInfo"
  | nvmlDeviceGetGraphicsRunningProcesses => "nvmlDeviceGetGraphicsRunningProcesses"
  | nvmlDeviceGetComputeRunningProcesses => "nvmlDeviceGetComputeRunningProcesses"

/-- The by-value arguments of each function (buffer lengths, indices, handles, pids),
in the shape the program passes them. -/
@[reducible] def hook_func.In : hook_func → Type
  | nvmlInit => Unit
  | nvmlInit_v2 => Unit
  | nvmlShutdown => Unit
  | nvmlErrorString => nvmlReturn_t
  | nvmlSystemGetNVMLVersion => Nat
  | nvmlSystemGetDriverVersion => Nat
  | nvmlSystemGetCudaDriverVersion => Unit
  | nvmlSystemGetCudaDriverVersion_v2 => Unit
  | nvmlSystemGetProcessName => Nat × Nat
  | nvmlDeviceGetCount => Unit
  | nvmlDeviceGetHandleByIndex => Nat
  | nvmlDeviceGetBAR1MemoryInfo => nvmlDevice_t
  | nvmlDeviceGetMemoryInfo => nvmlDevice_t
  | nvmlDeviceGetGraphicsRunningProcesses => nvmlDevice_t
  | nvmlDeviceGetComputeRunningProcesses => nvmlDevice_t

/-- The contents of the memory behind the pointer arguments of each function (its
output parameters).  A process array is the list of its written elements. -/
@[reducible] def hook_func.Out : hook_func → Type
  | nvmlInit => Unit
  | nvmlInit_v2 => Unit
  | nvmlShutdown => Unit
  | nvmlErrorString => Unit
  | nvmlSystemGetNVMLVersion => String
  | nvmlSystemGetDriverVersion => String
  | nvmlSystemGetCudaDriverVersion => Int
  | nvmlSystemGetCudaDriverVersion_v2 => Int
  | nvmlSystemGetProcessName => String
  | nvmlDeviceGetCount => Nat
  | nvmlDeviceGetHandleByIndex => nvmlDevice_t
  | nvmlDeviceGetBAR1MemoryInfo => nvmlBAR1Memory_t
  | nvmlDeviceGetMemoryInfo => nvmlMemory_t
  | nvmlDeviceGetGraphicsRunningProcesses => Nat × List nvmlProcessInfo_t
  | nvmlDeviceGetComputeRunningProcesses => Nat × List nvmlProcessInfo_t

/-- The return type `_ret` of each function: a status, except for `nvmlErrorString`,
which returns a string. -/
@[reducible] def hook_func.Ret : hook_func → Type
  | nvmlErrorString => String
  | _ => nvmlReturn_t

/-- A C function over the library state `σ`. -/
abbrev c_func (σ I O R : Type) : Type := I → O → σ → R × O × σ

/-- The function type `_func_t` of a hooked function. -/
abbrev hook_func.func_t (σ : Type) (e : hook_func) : Type := c_func σ e.In e.Out e.Ret

/-- A handle returned by `dlopen`. -/
abbrev dl_handle := Nat

/-- The struct `nvml_functions_t`: the library handle (`none` is `NULL`) and one
function pointer per hooked function (`none` is `NULL`). -/
structure nvml_functions_t (σ : Type) where
  libnvml : Option dl_handle
  funcs : (e : hook_func) → Option (e.func_t σ)

/-- Assignment `nvmlfuncs._func = p`. -/
def nvml_functions_t.assign {σ : Type} (nvmlfuncs : nvml_functions_t σ) (e : hook_func)
    (p : Option (e.func_t σ)) : nvml_functions_t σ :=
  { nvmlfuncs with funcs := Function.update nvmlfuncs.funcs e p }

/-- The catalog `nvml_hook_funcs.inl`, which is not among the sources and is taken as
a parameter: the hooked functions in the order of their `HOOK_FUNC` lines, and the
value `_reterr` each line gives for its function. -/
structure nvml_hook_funcs where
  entries : List hook_func
  reterr : (e : hook_func) → e.Ret

/-- The function `_func ## _null` the first `HOOK_FUNC` expansion declares:
`static _ret ( _func ## _null )( __VA_ARGS__ ) { return _reterr; }`.  It returns
`_reterr` and touches neither its arguments nor the library. -/
def hook_null {σ : Type} (hooks : nvml_hook_funcs) (e : hook_func) : e.func_t σ :=
  fun _ out s => (hooks.reterr e, out, s)

/-- The dynamic loader as the program sees it: which library names load, which
symbols a loaded library exports, and the diagnostic `dlerror()` gives. -/
structure dl_t (σ : Type) where
  dlopen : String → Option dl_handle
  dlsym : dl_handle → (e : hook_func) → Option (e.func_t σ)
  dlerror : String

/-- What the program can affect outside its own variables. -/
structure World (σ : Type) where
  lib : σ
  calls : List hook_func
  stdout : List String
  dlcloses : List dl_handle

/-- The second `HOOK_FUNC` expansion:
`nvmlfuncs._func = dlsym( libnvml, #_func ); if ( !nvmlfuncs._func ) nvmlfuncs._func = _func ## _null;` -/
def HOOK_FUNC {σ : Type} (dl : dl_t σ) (hooks : nvml_hook_funcs) (libnvml : dl_handle)
    (nvmlfuncs : nvml_functions_t σ) (e : hook_func) : nvml_functions_t σ :=
  let nvmlfuncs := nvmlfuncs.assign e (dl.dlsym libnvml e)
  if (nvmlfuncs.funcs e).isNone then nvmlfuncs.assign e (some (hook_null hooks e)) else nvmlfuncs

/-- The function `nvml_functions_init`. -/
def nvml_functions_init {σ : Type} (dl : dl_t σ) (hooks : nvml_hook_funcs)
    (nvmlfuncs : nvml_functions_t σ) (w : World σ) : Int × nvml_functions_t σ × World σ :=
  let libnvml := dl.dlopen "libnvidia-ml.so.1"
  let libnvml := if libnvml.isNone then dl.dlopen "libnvidia-ml.so" else libnvml
  match libnvml with
  | none =>
    (-1, nvmlfuncs,
      { w with stdout := w.stdout ++ ["ERROR: nvml_functions_init failed (" ++ dl.dlerror ++ ")\n"] })
  | some lib =>
    let nvmlfuncs := hooks.entries.foldl (HOOK_FUNC dl hooks lib) nvmlfuncs
    let nvmlfuncs :=
      if (nvmlfuncs.funcs nvmlInit_v2).isSome then
        nvmlfuncs.assign nvmlInit (nvmlfuncs.funcs nvmlInit_v2)
      else nvmlfuncs
    let nvmlfuncs :=
      if (nvmlfuncs.funcs nvmlSystemGetCudaDriverVersion_v2).isSome then
        nvmlfuncs.assign nvmlSystemGetCudaDriverVersion
          (nvmlfuncs.funcs nvmlSystemGetCudaDriverVersion_v2)
      else nvmlfuncs
    (0, { nvmlfuncs with libnvml := some lib }, w)

/-- The function `nvml_functions_shutdown`. -/
def nvml_functions_shutdown {σ : Type} (nvmlfuncs : nvml_functions_t σ) (w : World σ) :
    nvml_functions_t σ × World σ :=
  match nvmlfuncs.libnvml with
  | some lib => ({ nvmlfuncs with libnvml := none }, { w with dlcloses := w.dlcloses ++ [lib] })
  | none => (nvmlfuncs, w)

/-! ## The query walker -/

/-- The statement `printf( line )`. -/
def World.printf {σ : Type} (w : World σ) (line : String) : World σ :=
  { w with stdout := w.stdout ++ [line] }

/-- A call `nvmlfuncs._func( ... )` through the pointer `f` held by the table entry
`e`: undefined through `NULL`; otherwise the function runs on the library state
and the call is recorded. -/
def invoke {σ I O R : Type} (e : hook_func) (f : Option (c_func σ I O R)) (i : I) (o : O)
    (w : World σ) : Option (R × O × World σ) :=
  match f with
  | none => none
  | some f =>
    let r := f i o w.lib
    some (r.1, r.2.1, { w with lib := r.2.2, calls := w.calls ++ [e] })

/-- The macro `NVML_CALL( _ret, _func, ... )`: the call, and on a status other than
`NVML_SUCCESS` a line naming the function with the text `nvmlErrorString` gives. -/
def NVML_CALL {σ I O : Type} (nvmlfuncs : nvml_functions_t σ) (e : hook_func)
    (f : Option (c_func σ I O nvmlReturn_t)) (i : I) (o : O) (w : World σ) :
    Option (nvmlReturn_t × O × World σ) :=
  match invoke e f i o w with
  | none => none
  | some (ret, o, w) =>
    if ret ≠ NVML_SUCCESS then
      match invoke nvmlErrorString (nvmlfuncs.funcs nvmlErrorString) ret () w with
      | none => none
      | some (msg, _, w) =>
        some (ret, o, w.printf ("ERROR: " ++ e.name ++ " failed (" ++ msg ++ ")\n"))
    else some (ret, o, w)

/-- The loop `for ( unsigned int i = start; i < start + count; i++ ) body`, on the
variables `S` the body updates. -/
def for_loop {S : Type} (body : Nat → S → Option S) : Nat → Nat → S → Option S
  | _, 0, s => some s
  | i, k + 1, s =>
    match body i s with
    | none => none
    | some s => for_loop body (i + 1) k s

/-- The call `dst.resize( n )` of `std::vector`. -/
def vector_resize (dst : List nvgpu_processinfo_t) (n : Nat) : List nvgpu_processinfo_t :=
  dst.take n ++ List.replicate (n - dst.length) nvgpu_processinfo_t.fresh

/-- The element `process_infos[ i ]` of the array `nvmlProcessInfo_t process_infos[ 256 ]`
whose written elements are `process_infos`. -/
def process_infos_at (process_infos : List nvmlProcessInfo_t) (i : Nat) :
    Option nvmlProcessInfo_t :=
  if i < 256 then process_infos[i]? else none

/-- The body of the loop of `nvgpu_get_process_info`. -/
def nvgpu_get_process_info_body {σ : Type} (nvmlfuncs : nvml_functions_t σ)
    (process_infos : List nvmlProcessInfo_t) (i : Nat)
    (st : List nvgpu_processinfo_t × World σ) : Option (List nvgpu_processinfo_t × World σ) :=
  match process_infos_at process_infos i, st.1[i]? with
  | some info, some procinfo =>
    let procinfo := { procinfo with pid := info.pid, usedGpuMemory := info.usedGpuMemory }
    match NVML_CALL nvmlfuncs nvmlSystemGetProcessName (nvmlfuncs.funcs nvmlSystemGetProcessName)
        (info.pid, 80) procinfo.name st.2 with
    | none => none
    | some (_, name, w) => some (st.1.set i { procinfo with name := name }, w)
  | _, _ => none

/-- The function `nvgpu_get_process_info`. -/
def nvgpu_get_process_info {σ : Type} (nvmlfuncs : nvml_functions_t σ) (nvmldev : nvmlDevice_t)
    (dst : List nvgpu_processinfo_t) (doCompute : Bool) (w : World σ) :
    Option (List nvgpu_processinfo_t × World σ) :=
  let process_count : Nat := 256
  let process_infos : List nvmlProcessInfo_t := []
  let called :=
    if doCompute then
      NVML_CALL nvmlfuncs nvmlDeviceGetComputeRunningProcesses
        (nvmlfuncs.funcs nvmlDeviceGetComputeRunningProcesses) nvmldev
        (process_count, process_infos) w
    else
      NVML_CALL nvmlfuncs nvmlDeviceGetGraphicsRunningProcesses
        (nvmlfuncs.funcs nvmlDeviceGetGraphicsRunningProcesses) nvmldev
        (process_count, process_infos) w
  match called with
  | none => none
  | some (ret, (process_count, process_infos), w) =>
    if ret = 0 ∧ process_count ≠ 0 then
      for_loop (nvgpu_get_process_info_body nvmlfuncs process_infos) 0 process_count
        (vector_resize dst process_count, w)
    else some (dst, w)

/-- The body of the device loop of `nvgpu_get_info`, on the variables `ret` and
`nvgpu_info`. -/
def nvgpu_get_info_body {σ : Type} (nvmlfuncs : nvml_functions_t σ) (i : Nat)
    (st : nvmlReturn_t × nvgpu_info_t × World σ) : Option (nvmlReturn_t × nvgpu_info_t × World σ) :=
  let nvmldev : nvmlDevice_t := none
  let devinfo := nvgpu_devinfo_t.fresh
  match NVML_CALL nvmlfuncs nvmlDeviceGetHandleByIndex
      (nvmlfuncs.funcs nvmlDeviceGetHandleByIndex) i nvmldev st.2.2 with
  | none => none
  | some (_, nvmldev, w) =>
  match NVML_CALL nvmlfuncs nvmlDeviceGetBAR1MemoryInfo
      (nvmlfuncs.funcs nvmlDeviceGetBAR1MemoryInfo) nvmldev devinfo.bar1mem w with
  | none => none
  | some (_, bar1mem, w) =>
  let devinfo := { devinfo with bar1mem := bar1mem }
  match NVML_CALL nvmlfuncs nvmlDeviceGetMemoryInfo
      (nvmlfuncs.funcs nvmlDeviceGetMemoryInfo) nvmldev devinfo.meminfo w with
  | none => none
  | some (ret, meminfo, w) =>
  let devinfo := { devinfo with meminfo := meminfo }
  match nvgpu_get_process_info nvmlfuncs nvmldev devinfo.gpu_processinfos false w with
  | none => none
  | some (gpu_processinfos, w) =>
  let devinfo := { devinfo with gpu_processinfos := gpu_processinfos }
  match nvgpu_get_process_info nvmlfuncs nvmldev devinfo.compute_processinfos true w with
  | none => none
  | some (compute_processinfos, w) =>
  let devinfo := { devinfo with compute_processinfos := compute_processinfos }
  some (ret, { st.2.1 with devinfos := st.2.1.devinfos ++ [devinfo] }, w)

/-- The function `nvgpu_get_info`. -/
def nvgpu_get_info {σ : Type} (nvmlfuncs : nvml_functions_t σ) (nvgpu_info : nvgpu_info_t)
    (w : World σ) : Option (nvmlReturn_t × nvgpu_info_t × World σ) :=
  match invoke nvmlInit (nvmlfuncs.funcs nvmlInit) () () w with
  | none => none
  | some (ret, _, w) =>
  if ret ≠ NVML_SUCCESS then
    match invoke nvmlErrorString (nvmlfuncs.funcs nvmlErrorString) ret () w with
    | none => none
    | some (msg, _, w) => some (ret, nvgpu_info, w.printf ("ERROR: nvmlInit failed (" ++ msg ++ ")\n"))
  else
    match NVML_CALL nvmlfuncs nvmlSystemGetNVMLVersion
        (nvmlfuncs.funcs nvmlSystemGetNVMLVersion) 256 nvgpu_info.nvml_version w with
    | none => none
    | some (_, nvml_version, w) =>
    let nvgpu_info := { nvgpu_info with nvml_version := nvml_version }
    match NVML_CALL nvmlfuncs nvmlSystemGetDriverVersion
        (nvmlfuncs.funcs nvmlSystemGetDriverVersion) 256 nvgpu_info.driver_version w with
    | none => none
    | some (_, driver_version, w) =>
    let nvgpu_info := { nvgpu_info with driver_version := driver_version }
    match NVML_CALL nvmlfuncs nvmlSystemGetCudaDriverVersion
        (nvmlfuncs.funcs nvmlSystemGetCudaDriverVersion) () nvgpu_info.cuda_version w with
    | none => none
    | some (_, cuda_version, w) =>
    let nvgpu_info := { nvgpu_info with cuda_version := cuda_version }
    let device_count : Nat := 0
    match NVML_CALL nvmlfuncs nvmlDeviceGetCount
        (nvmlfuncs.funcs nvmlDeviceGetCount) () device_count w with
    | none => none
    | some (ret, device_count, w) =>
    let looped :=
      if ret = NVML_SUCCESS then
        for_loop (nvgpu_get_info_body nvmlfuncs) 0 device_count (ret, nvgpu_info, w)
      else some (ret, nvgpu_info, w)
    match looped with
    | none => none
    | some (ret, nvgpu_info, w) =>
    match invoke nvmlShutdown (nvmlfuncs.funcs nvmlShutdown) () () w with
    | none => none
    | some (_, _, w) => some (ret, nvgpu_info, w)

/-! ## Conditions under which a run is defined -/

/-- Every entry of the table is non-null. -/
def nvml_functions_t.callable {σ : Type} (nvmlfuncs : nvml_functions_t σ) : Prop :=
  ∀ e, (nvmlfuncs.funcs e).isSome = true

/-- A running-process query behind the pointer `f`, called on the 256-element array,
reports on success at most 256 processes and has written every process it reports. -/
def processes_fit {σ : Type}
    (f : Option (c_func σ nvmlDevice_t (Nat × List nvmlProcessInfo_t) nvmlReturn_t)) : Prop :=
  ∀ g, f = some g → ∀ dev s, (g dev (256, []) s).1 = 0 →
    (g dev (256, []) s).2.1.1 ≤ 256 ∧ (g dev (256, []) s).2.1.1 ≤ (g dev (256, []) s).2.1.2.length

/-- The table can be walked: every entry is non-null and both running-process
queries keep to the array they are given. -/
def nvml_functions_t.walkable {σ : Type} (nvmlfuncs : nvml_functions_t σ) : Prop :=
  nvmlfuncs.callable ∧
  processes_fit (nvmlfuncs.funcs nvmlDeviceGetGraphicsRunningProcesses) ∧
  processes_fit (nvmlfuncs.funcs nvmlDeviceGetComputeRunningProcesses)

/-- The world `w1` is reached from `w` by calls of table entries other than the
session-init and session-shutdown entries, and without a `dlclose`. -/
def World.queries_to {σ : Type} (w w1 : World σ) : Prop :=
  ∃ cs, w1.calls = w.calls ++ cs ∧ nvmlInit ∉ cs ∧ nvmlShutdown ∉ cs ∧ w1.dlcloses = w.dlcloses

/-- The invariant of the process loop on an empty destination list resized to `n`:
after `j` iterations the list still has `n` entries, the entries from `j` on are
untouched, and each entry `m` before `j` holds the pid and memory of process `m`
and the name the lookup left in the empty name buffer, the lookup being made in
the world the first `m` iterations reach. -/
def process_loop_inv {σ : Type} (nvmlfuncs : nvml_functions_t σ)
    (infos : List nvmlProcessInfo_t) (n : Nat) (w0 : World σ) (j : Nat)
    (st : List nvgpu_processinfo_t × World σ) : Prop :=
  for_loop (nvgpu_get_process_info_body nvmlfuncs infos) 0 j (vector_resize [] n, w0) = some st ∧
  st.1.length = n ∧ w0.queries_to st.2 ∧
  (∀ m, j ≤ m → m < n → st.1[m]? = some nvgpu_processinfo_t.fresh) ∧
  (∀ m (hm : m < j) (hl : m < infos.length), ∃ dm wm ret name wm1,
    for_loop (nvgpu_get_process_info_body nvmlfuncs infos) 0 m (vector_resize [] n, w0)
      = some (dm, wm) ∧
    NVML_CALL nvmlfuncs nvmlSystemGetProcessName (nvmlfuncs.funcs nvmlSystemGetProcessName)
      ((infos[m]).pid, 80) "" wm = some (ret, name, wm1) ∧
    st.1[m]? = some ⟨name, (infos[m]).pid, (infos[m]).usedGpuMemory⟩)

/-- A failing call through the pointer `f` leaves its output parameters as the caller
passed them (as the null substitutes do). -/
def keeps_output_on_failure {σ I O : Type} (f : Option (c_func σ I O nvmlReturn_t)) : Prop :=
  ∀ g, f = some g → ∀ i o s, (g i o s).1 ≠ NVML_SUCCESS → (g i o s).2.1 = o

/-- What one `HOOK_FUNC` line leaves in its table entry: the address `dlsym` gives,
or the null substitute when `dlsym` gives `NULL`. -/
def hook_resolved {σ : Type} (dl : dl_t σ) (hooks : nvml_hook_funcs) (libnvml : dl_handle)
    (e : hook_func) : Option (e.func_t σ) :=
  match dl.dlsym libnvml e with
  | some f => some f
  | none => some (hook_null hooks e)

/-! ## A mock library -/

/-- The choices of the mock library: the symbols it exports, the status of its
session init and of its device-count query, and whether its failing queries write
their output parameters. -/
structure mock_cfg where
  exports : hook_func → Bool
  init_status : nvmlReturn_t
  count_status : nvmlReturn_t
  writes_on_failure : Bool

/-- The functions of the mock library, over a state that counts its calls.  It has
two devices; the memory query fails on the second; the first runs three graphics
processes and no compute process; the name lookup fails for pid 42. -/
def mock_impl (cfg : mock_cfg) : (e : hook_func) → e.func_t Nat
  | nvmlInit => fun _ o s => (cfg.init_status, o, s + 1)
  | nvmlInit_v2 => fun _ o s => (cfg.init_status, o, s + 1)
  | nvmlShutdown => fun _ o s => (0, o, s + 1)
  | nvmlErrorString => fun r o s => (if r = 5 then "Not Supported" else "Unknown Error", o, s + 1)
  | nvmlSystemGetNVMLVersion => fun _ _ s => (0, "12.535.54", s + 1)
  | nvmlSystemGetDriverVersion => fun _ _ s => (0, "535.54", s + 1)
  | nvmlSystemGetCudaDriverVersion => fun _ _ s => (0, 12020, s + 1)
  | nvmlSystemGetCudaDriverVersion_v2 => fun _ _ s => (0, 12020, s + 1)
  | nvmlSystemGetProcessName => fun i o s =>
    if i.1 = 42 then (6, if cfg.writes_on_failure then "junk" else o, s + 1)
    else (0, "Xorg", s + 1)
  | nvmlDeviceGetCount => fun _ o s =>
    if cfg.count_status = 0 then (0, 2, s + 1) else (cfg.count_status, o, s + 1)
  | nvmlDeviceGetHandleByIndex => fun i _ s => (0, some i, s + 1)
  | nvmlDeviceGetBAR1MemoryInfo => fun _ _ s => (0, ⟨256, 192, 64⟩, s + 1)
  | nvmlDeviceGetMemoryInfo => fun dev o s =>
    if dev = some 1 then (5, if cfg.writes_on_failure then ⟨7, 7, 7⟩ else o, s + 1)
    else (0, ⟨8192, 6144, 2048⟩, s + 1)
  | nvmlDeviceGetGraphicsRunningProcesses => fun dev _ s =>
    if dev = some 0 then (0, (3, [⟨41, 100⟩, ⟨42, 200⟩, ⟨43, 300⟩]), s + 1)
    else (0, (0, []), s + 1)
  | nvmlDeviceGetComputeRunningProcesses => fun _ _ s => (0, (0, []), s + 1)

/-- The loader of the mock library: `libnvidia-ml.so.1` loads, with handle `1`. -/
def mock_dl (cfg : mock_cfg) : dl_t Nat where
  dlopen := fun _ => some 1
  dlsym := fun _ e => if cfg.exports e then some (mock_impl cfg e) else none
  dlerror := ""

/-- A catalog with every function the program uses; the status functions designate
the status 13, `nvmlErrorString` the empty string. -/
def mock_hooks : nvml_hook_funcs where
  entries := [nvmlInit, nvmlInit_v2, nvmlShutdown, nvmlErrorString, nvmlSystemGetNVMLVersion,
    nvmlSystemGetDriverVersion, nvmlSystemGetCudaDriverVersion, nvmlSystemGetCudaDriverVersion_v2,
    nvmlSystemGetProcessName, nvmlDeviceGetCount, nvmlDeviceGetHandleByIndex,
    nvmlDeviceGetBAR1MemoryInfo, nvmlDeviceGetMemoryInfo, nvmlDeviceGetGraphicsRunningProcesses,
    nvmlDeviceGetComputeRunningProcesses]
  reterr := fun e =>
    match e with
    | nvmlInit => (13 : Nat)
    | nvmlInit_v2 => (13 : Nat)
    | nvmlShutdown => (13 : Nat)
    | nvmlErrorString => ""
    | nvmlSystemGetNVMLVersion => (13 : Nat)
    | nvmlSystemGetDriverVersion => (13 : Nat)
    | nvmlSystemGetCudaDriverVersion => (13 : Nat)
    | nvmlSystemGetCudaDriverVersion_v2 => (13 : Nat)
    | nvmlSystemGetProcessName => (13 : Nat)
    | nvmlDeviceGetCount => (13 : Nat)
    | nvmlDeviceGetHandleByIndex => (13 : Nat)
    | nvmlDeviceGetBAR1MemoryInfo => (13 : Nat)
    | nvmlDeviceGetMemoryInfo => (13 : Nat)
    | nvmlDeviceGetGraphicsRunningProcesses => (13 : Nat)
    | nvmlDeviceGetComputeRunningProcesses => (13 : Nat)

/-- The world before the program starts. -/
def mock_world : World Nat := ⟨0, [], [], []⟩

/-- A table before `nvml_functions_init`: every pointer null. -/
def null_functions : nvml_functions_t Nat := ⟨none, fun _ => none⟩

/-- The table `nvml_functions_init` builds from the mock library. -/
def mock_functions (cfg : mock_cfg) : nvml_functions_t Nat :=
  (nvml_functions_init (mock_dl cfg) mock_hooks null_functions mock_world).2.1

/-- The mock library exporting every symbol, its failing queries writing nothing. -/
def mock_full : mock_cfg := ⟨fun _ => true, 0, 0, false⟩

/-- The mock library exporting no symbol at all. -/
def mock_bare : mock_cfg := ⟨fun _ => false, 0, 0, false⟩

/-- The mock library of a driver that has dropped the legacy `nvmlInit`: it exports
every symbol but that one. -/
def mock_v2_only : mock_cfg := ⟨fun e => decide (e ≠ nvmlInit), 0, 0, false⟩

/-- The mock library of an older driver: it exports the legacy symbols but neither
`nvmlInit_v2` nor `nvmlSystemGetCudaDriverVersion_v2`. -/
def mock_legacy_only : mock_cfg :=
  ⟨fun e => decide (e ≠ nvmlInit_v2 ∧ e ≠ nvmlSystemGetCudaDriverVersion_v2), 0, 0, false⟩

/-- The mock library exporting every symbol, its failing queries writing their
output parameters. -/
def mock_writing : mock_cfg := ⟨fun _ => true, 0, 0, true⟩

/-- The mock library exporting every symbol, its session init failing with status 3. -/
def mock_init_fails : mock_cfg := ⟨fun _ => true, 3, 0, false⟩

/-- The mock library exporting every symbol, its device-count query failing with
status 3. -/
def mock_count_fails : mock_cfg := ⟨fun _ => true, 0, 3, false⟩

/-! ## Loops -/

theorem for_loop_add {S : Type} (body : Nat → S → Option S) (k m i : Nat) (s : S) :
    for_loop body i (k + m) s = (for_loop body i k s).bind (for_loop body (i + k) m) := by
  induction k generalizing i s with
  | zero => simp [for_loop]
  | succ k ih =>
    rw [Nat.succ_add]
    simp only [for_loop]
    cases h : body i s with
    | none => simp
    | some s1 =>
      simp only [ih]
      have : i + 1 + k = i + (k + 1) := by omega
      rw [this]

theorem for_loop_succ {S : Type} (body : Nat → S → Option S) (k i : Nat) (s : S) :
    for_loop body i (k + 1) s = (for_loop body i k s).bind (body (i + k)) := by
  rw [for_loop_add]
  congr 1
  funext t
  simp only [for_loop]
  cases body (i + k) t <;> rfl

/-- Total-correctness loop rule: an invariant that the body keeps, and under which
the body is defined, holds after the loop, which is then defined. -/
theorem for_loop_inv {S : Type} (body : Nat → S → Option S) (P : Nat → S → Prop)
    (k i : Nat) (s : S) (h0 : P 0 s)
    (hbody : ∀ j t, j < k → P j t → ∃ t1, body (i + j) t = some t1 ∧ P (j + 1) t1) :
    ∃ t, for_loop body i k s = some t ∧ P k t := by
  induction k with
  | zero => exact ⟨s, rfl, h0⟩
  | succ k ih =>
    obtain ⟨t, ht, hP⟩ := ih (fun j t hj hp => hbody j t (by omega) hp)
    obtain ⟨t1, ht1, hP1⟩ := hbody k t (by omega) hP
    exact ⟨t1, by rw [for_loop_succ, ht]; simpa using ht1, hP1⟩

/-! ## Calls through the table -/

theorem World.queries_to_refl {σ : Type} (w : World σ) : w.queries_to w :=
  ⟨[], by simp, by simp, by simp, rfl⟩

theorem World.queries_to_trans {σ : Type} {w w1 w2 : World σ} (h1 : w.queries_to w1)
    (h2 : w1.queries_to w2) : w.queries_to w2 := by
  obtain ⟨c1, e1, a1, b1, d1⟩ := h1
  obtain ⟨c2, e2, a2, b2, d2⟩ := h2
  refine ⟨c1 ++ c2, by rw [e2, e1, List.append_assoc], ?_, ?_, by rw [d2, d1]⟩
  · simp [a1, a2]
  · simp [b1, b2]

theorem invoke_some {σ I O R : Type} (e : hook_func) (g : c_func σ I O R) (i : I) (o : O)
    (w : World σ) :
    invoke e (some g) i o w =
      some ((g i o w.lib).1, (g i o w.lib).2.1,
        { w with lib := (g i o w.lib).2.2, calls := w.calls ++ [e] }) := rfl

theorem NVML_CALL_some {σ I O : Type} {nvmlfuncs : nvml_functions_t σ}
    (hc : nvmlfuncs.callable) (e : hook_func) (he : e ≠ nvmlInit) (hs : e ≠ nvmlShutdown)
    (g : c_func σ I O nvmlReturn_t) (i : I) (o : O) (w : World σ) :
    ∃ w1, NVML_CALL nvmlfuncs e (some g) i o w = some ((g i o w.lib).1, (g i o w.lib).2.1, w1)
      ∧ w.queries_to w1 := by
  have herr := hc nvmlErrorString
  obtain ⟨ge, hge⟩ := Option.isSome_iff_exists.mp herr
  simp only [NVML_CALL, invoke_some, hge]
  by_cases hr : (g i o w.lib).1 = NVML_SUCCESS
  · rw [if_neg (by simp [hr])]
    refine ⟨_, rfl, [e], rfl, ?_, ?_, rfl⟩
    · simpa using Ne.symm he
    · simpa using Ne.symm hs
  · rw [if_pos hr]
    refine ⟨_, rfl, [e, nvmlErrorString], ?_, ?_, ?_, rfl⟩
    · simp [World.printf]
    · simp [Ne.symm he]
    · simp [Ne.symm hs]

theorem NVML_CALL_defined {σ I O : Type} {nvmlfuncs : nvml_functions_t σ}
    (hc : nvmlfuncs.callable) (e : hook_func) (he : e ≠ nvmlInit) (hs : e ≠ nvmlShutdown)
    (f : Option (c_func σ I O nvmlReturn_t)) (hf : f.isSome = true) (i : I) (o : O)
    (w : World σ) :
    ∃ ret o1 w1, NVML_CALL nvmlfuncs e f i o w = some (ret, o1, w1) ∧ w.queries_to w1 := by
  obtain ⟨g, rfl⟩ := Option.isSome_iff_exists.mp hf
  obtain ⟨w1, h, hq⟩ := NVML_CALL_some hc e he hs g i o w
  exact ⟨_, _, w1, h, hq⟩

/-! ## The process walk -/

theorem vector_resize_nil_getElem? (n m : Nat) (h : m < n) :
    (vector_resize [] n)[m]? = some nvgpu_processinfo_t.fresh := by
  simp [vector_resize, List.getElem?_replicate, h]

theorem vector_resize_length (dst : List nvgpu_processinfo_t) (n : Nat) :
    (vector_resize dst n).length = n := by
  simp [vector_resize]
  omega

theorem process_infos_at_some (infos : List nvmlProcessInfo_t) (i : Nat) (h1 : i < 256)
    (h2 : i < infos.length) : process_infos_at infos i = some (infos[i]) := by
  simp [process_infos_at, h1, List.getElem?_eq_getElem h2]

/-- One iteration of the process loop, where it is defined. -/
theorem nvgpu_get_process_info_body_some {σ : Type} {nvmlfuncs : nvml_functions_t σ}
    (hc : nvmlfuncs.callable) (infos : List nvmlProcessInfo_t) (i : Nat) (h1 : i < 256)
    (h2 : i < infos.length) (dst : List nvgpu_processinfo_t) (p : nvgpu_processinfo_t)
    (hp : dst[i]? = some p) (w : World σ) :
    ∃ ret name w1,
      NVML_CALL nvmlfuncs nvmlSystemGetProcessName (nvmlfuncs.funcs nvmlSystemGetProcessName)
        ((infos[i]).pid, 80) p.name w = some (ret, name, w1) ∧
      nvgpu_get_process_info_body nvmlfuncs infos i (dst, w) =
        some (dst.set i ⟨name, (infos[i]).pid, (infos[i]).usedGpuMemory⟩, w1) ∧
      w.queries_to w1 := by
  obtain ⟨ret, name, w1, h, hq⟩ := NVML_CALL_defined hc nvmlSystemGetProcessName
    (by decide) (by decide) (nvmlfuncs.funcs nvmlSystemGetProcessName)
    (hc nvmlSystemGetProcessName) ((infos[i]).pid, 80) p.name w
  refine ⟨ret, name, w1, h, ?_, hq⟩
  simp only [nvgpu_get_process_info_body, process_infos_at_some infos i h1 h2, hp, h]

theorem process_loop_spec {σ : Type} {nvmlfuncs : nvml_functions_t σ}
    (hc : nvmlfuncs.callable) (infos : List nvmlProcessInfo_t) (n : Nat) (h1 : n ≤ 256)
    (h2 : n ≤ infos.length) (w0 : World σ) :
    ∃ st, for_loop (nvgpu_get_process_info_body nvmlfuncs infos) 0 n (vector_resize [] n, w0)
        = some st ∧ process_loop_inv nvmlfuncs infos n w0 n st := by
  apply for_loop_inv (nvgpu_get_process_info_body nvmlfuncs infos)
    (process_loop_inv nvmlfuncs infos n w0) n 0 (vector_resize [] n, w0)
  · refine ⟨rfl, vector_resize_length _ _, World.queries_to_refl _, ?_, ?_⟩
    · intro m _ hm
      exact vector_resize_nil_getElem? n m hm
    · intro m hm
      omega
  · rintro j ⟨d, w⟩ hj ⟨hrun, hlen, hq, hrest, hdone⟩
    simp only at hlen hq hrest hdone
    have hj1 : j < 256 := by omega
    have hj2 : j < infos.length := by omega
    obtain ⟨ret, name, w1, hcall, hbody, hq1⟩ :=
      nvgpu_get_process_info_body_some hc infos j hj1 hj2 d _ (hrest j (le_refl j) hj) w
    rw [Nat.zero_add]
    refine ⟨_, hbody, ?_, ?_, World.queries_to_trans hq hq1, ?_, ?_⟩
    · rw [for_loop_succ, hrun]
      simpa using hbody
    · simpa using hlen
    · intro m hjm hm
      simp only
      rw [List.getElem?_set_ne (by omega)]
      exact hrest m (by omega) hm
    · intro m hm hl
      by_cases hmj : m = j
      · subst hmj
        refine ⟨d, w, ret, name, w1, hrun, hcall, ?_⟩
        simp only
        rw [List.getElem?_set_self (by omega)]
      · obtain ⟨dm, wm, r, nm, wm1, e1, e2, e3⟩ := hdone m (by omega) hl
        refine ⟨dm, wm, r, nm, wm1, e1, e2, ?_⟩
        simp only
        rw [List.getElem?_set_ne (by omega)]
        exact e3

/-- The running-process query `nvgpu_get_process_info` makes: the graphics query
when `doCompute` is false, the compute query when it is true. -/
theorem nvgpu_get_process_info_query {σ : Type} (nvmlfuncs : nvml_functions_t σ)
    (nvmldev : nvmlDevice_t) (dst : List nvgpu_processinfo_t) (doCompute : Bool) (w : World σ) :
    nvgpu_get_process_info nvmlfuncs nvmldev dst doCompute w =
      match NVML_CALL nvmlfuncs
          (if doCompute then nvmlDeviceGetComputeRunningProcesses
            else nvmlDeviceGetGraphicsRunningProcesses)
          (if doCompute then nvmlfuncs.funcs nvmlDeviceGetComputeRunningProcesses
            else nvmlfuncs.funcs nvmlDeviceGetGraphicsRunningProcesses)
          nvmldev (256, []) w with
      | none => none
      | some (ret, (process_count, process_infos), w) =>
        if ret = 0 ∧ process_count ≠ 0 then
          for_loop (nvgpu_get_process_info_body nvmlfuncs process_infos) 0 process_count
            (vector_resize dst process_count, w)
        else some (dst, w) := by
  cases doCompute <;> rfl

theorem nvgpu_get_process_info_spec {σ : Type} {nvmlfuncs : nvml_functions_t σ}
    (hc : nvmlfuncs.callable) (nvmldev : nvmlDevice_t) (doCompute : Bool) (w : World σ) :
    ∃ ret n infos w1,
      NVML_CALL nvmlfuncs
          (if doCompute then nvmlDeviceGetComputeRunningProcesses
            else nvmlDeviceGetGraphicsRunningProcesses)
          (if doCompute then nvmlfuncs.funcs nvmlDeviceGetComputeRunningProcesses
            else nvmlfuncs.funcs nvmlDeviceGetGraphicsRunningProcesses)
          nvmldev (256, []) w = some (ret, (n, infos), w1) ∧
      w.queries_to w1 ∧
      (ret ≠ 0 ∨ n = 0 → nvgpu_get_process_info nvmlfuncs nvmldev [] doCompute w = some ([], w1)) ∧
      (ret = 0 → n ≠ 0 → n ≤ 256 → n ≤ infos.length →
        ∃ st, nvgpu_get_process_info nvmlfuncs nvmldev [] doCompute w = some st ∧
          process_loop_inv nvmlfuncs infos n w1 n st) := by
  obtain ⟨ret, ⟨n, infos⟩, w1, hcall, hq⟩ := NVML_CALL_defined hc
    (if doCompute then nvmlDeviceGetComputeRunningProcesses
      else nvmlDeviceGetGraphicsRunningProcesses)
    (by cases doCompute <;> decide) (by cases doCompute <;> decide)
    (if doCompute then nvmlfuncs.funcs nvmlDeviceGetComputeRunningProcesses
      else nvmlfuncs.funcs nvmlDeviceGetGraphicsRunningProcesses)
    (by cases doCompute
        · exact hc nvmlDeviceGetGraphicsRunningProcesses
        · exact hc nvmlDeviceGetComputeRunningProcesses)
    nvmldev (256, []) w
  refine ⟨ret, n, infos, w1, hcall, hq, ?_, ?_⟩
  · intro h
    rw [nvgpu_get_process_info_query, hcall]
    simp only
    rw [if_neg]
    rcases h with h | h
    · exact fun hh => h hh.1
    · exact fun hh => hh.2 h
  · intro hr hn h1 h2
    rw [nvgpu_get_process_info_query, hcall]
    simp only
    rw [if_pos ⟨hr, hn⟩]
    exact process_loop_spec hc infos n h1 h2 w1

theorem NVML_CALL_out {σ I O : Type} {nvmlfuncs : nvml_functions_t σ} (e : hook_func)
    (g : c_func σ I O nvmlReturn_t) (i : I) (o : O) (w : World σ) (ret : nvmlReturn_t) (o1 : O)
    (w1 : World σ) (h : NVML_CALL nvmlfuncs e (some g) i o w = some (ret, o1, w1)) :
    ret = (g i o w.lib).1 ∧ o1 = (g i o w.lib).2.1 := by
  simp only [NVML_CALL, invoke_some] at h
  split at h
  · split at h
    · exact absurd h (by simp)
    · simp only [Option.some.injEq, Prod.mk.injEq] at h
      exact ⟨h.1.symm, h.2.1.symm⟩
  · simp only [Option.some.injEq, Prod.mk.injEq] at h
    exact ⟨h.1.symm, h.2.1.symm⟩

theorem NVML_CALL_keeps {σ I O : Type} {nvmlfuncs : nvml_functions_t σ} (e : hook_func)
    (f : Option (c_func σ I O nvmlReturn_t)) (hk : keeps_output_on_failure f) (i : I) (o : O)
    (w : World σ) (ret : nvmlReturn_t) (o1 : O) (w1 : World σ)
    (h : NVML_CALL nvmlfuncs e f i o w = some (ret, o1, w1)) (hret : ret ≠ NVML_SUCCESS) :
    o1 = o := by
  cases f with
  | none => simp [NVML_CALL, invoke] at h
  | some g =>
    obtain ⟨e1, e2⟩ := NVML_CALL_out e g i o w ret o1 w1 h
    rw [e2]
    exact hk g rfl i o w.lib (e1 ▸ hret)

/-! ## The walk of `nvgpu_get_info` -/

/-- A run whose session init fails. -/
theorem nvgpu_get_info_init_failed {σ : Type} {nvmlfuncs : nvml_functions_t σ}
    (herr : (nvmlfuncs.funcs nvmlErrorString).isSome = true) (nvgpu_info : nvgpu_info_t)
    (w w1 : World σ) (e : nvmlReturn_t)
    (h0 : invoke nvmlInit (nvmlfuncs.funcs nvmlInit) () () w = some (e, (), w1))
    (he : e ≠ NVML_SUCCESS) :
    ∃ msg w2, invoke nvmlErrorString (nvmlfuncs.funcs nvmlErrorString) e () w1 = some (msg, (), w2) ∧
      nvgpu_get_info nvmlfuncs nvgpu_info w =
        some (e, nvgpu_info, w2.printf ("ERROR: nvmlInit failed (" ++ msg ++ ")\n")) ∧
      w2.calls = w1.calls ++ [nvmlErrorString] ∧ w2.dlcloses = w1.dlcloses := by
  obtain ⟨ge, hge⟩ := Option.isSome_iff_exists.mp herr
  refine ⟨(ge e () w1.lib).1,
    { w1 with lib := (ge e () w1.lib).2.2, calls := w1.calls ++ [nvmlErrorString] },
    by rw [hge, invoke_some], ?_, rfl, rfl⟩
  simp only [nvgpu_get_info, h0, hge, invoke_some]
  rw [if_pos he]

/-- A run whose session init succeeds, up to the end of the device loop. -/
theorem nvgpu_get_info_session {σ : Type} {nvmlfuncs : nvml_functions_t σ}
    (nvgpu_info : nvgpu_info_t) (w w1 w2 w3 w4 w5 : World σ) (r1 r2 r3 ret : nvmlReturn_t)
    (nvml_version driver_version : String) (cuda_version : Int) (device_count : Nat)
    (h0 : invoke nvmlInit (nvmlfuncs.funcs nvmlInit) () () w = some (NVML_SUCCESS, (), w1))
    (h1 : NVML_CALL nvmlfuncs nvmlSystemGetNVMLVersion
      (nvmlfuncs.funcs nvmlSystemGetNVMLVersion) 256 nvgpu_info.nvml_version w1
        = some (r1, nvml_version, w2))
    (h2 : NVML_CALL nvmlfuncs nvmlSystemGetDriverVersion
      (nvmlfuncs.funcs nvmlSystemGetDriverVersion) 256 nvgpu_info.driver_version w2
        = some (r2, driver_version, w3))
    (h3 : NVML_CALL nvmlfuncs nvmlSystemGetCudaDriverVersion
      (nvmlfuncs.funcs nvmlSystemGetCudaDriverVersion) () nvgpu_info.cuda_version w3
        = some (r3, cuda_version, w4))
    (h4 : NVML_CALL nvmlfuncs nvmlDeviceGetCount
      (nvmlfuncs.funcs nvmlDeviceGetCount) () 0 w4 = some (ret, device_count, w5)) :
    nvgpu_get_info nvmlfuncs nvgpu_info w =
      match (if ret = NVML_SUCCESS then
          for_loop (nvgpu_get_info_body nvmlfuncs) 0 device_count
            (ret, ⟨driver_version, nvml_version, cuda_version, nvgpu_info.devinfos⟩, w5)
        else some (ret, ⟨driver_version, nvml_version, cuda_version, nvgpu_info.devinfos⟩, w5)) with
      | none => none
      | some (ret, nvgpu_info, w) =>
        match invoke nvmlShutdown (nvmlfuncs.funcs nvmlShutdown) () () w with
        | none => none
        | some (_, _, w) => some (ret, nvgpu_info, w) := by
  simp only [nvgpu_get_info, h0, h1, h2, h3, h4]
  rw [if_neg (by simp)]

theorem invoke_world {σ I O R : Type} (e : hook_func) (f : Option (c_func σ I O R)) (i : I)
    (o : O) (w : World σ) (r : R) (o1 : O) (w1 : World σ)
    (h : invoke e f i o w = some (r, o1, w1)) :
    w1.calls = w.calls ++ [e] ∧ w1.dlcloses = w.dlcloses ∧ w1.stdout = w.stdout := by
  cases f with
  | none => simp [invoke] at h
  | some g =>
    rw [invoke_some] at h
    simp only [Option.some.injEq, Prod.mk.injEq] at h
    obtain ⟨_, _, rfl⟩ := h
    exact ⟨rfl, rfl, rfl⟩

theorem invoke_defined {σ I O R : Type} (e : hook_func) (f : Option (c_func σ I O R))
    (hf : f.isSome = true) (i : I) (o : O) (w : World σ) :
    ∃ r o1 w1, invoke e f i o w = some (r, o1, w1) := by
  obtain ⟨g, rfl⟩ := Option.isSome_iff_exists.mp hf
  exact ⟨_, _, _, invoke_some e g i o w⟩

theorem NVML_CALL_calls {σ I O : Type} {nvmlfuncs : nvml_functions_t σ} (e : hook_func)
    (f : Option (c_func σ I O nvmlReturn_t)) (i : I) (o : O) (w : World σ) (ret : nvmlReturn_t)
    (o1 : O) (w1 : World σ) (h : NVML_CALL nvmlfuncs e f i o w = some (ret, o1, w1)) :
    w1.calls = w.calls ++ e :: (if ret ≠ NVML_SUCCESS then [nvmlErrorString] else []) := by
  unfold NVML_CALL at h
  cases h1 : invoke e f i o w with
  | none => simp [h1] at h
  | some x =>
    obtain ⟨r, o2, w2⟩ := x
    have hw2 := (invoke_world e f i o w r o2 w2 h1).1
    simp only [h1] at h
    by_cases hr : r ≠ NVML_SUCCESS
    · rw [if_pos hr] at h
      cases h2 : invoke nvmlErrorString (nvmlfuncs.funcs nvmlErrorString) r () w2 with
      | none => simp [h2] at h
      | some y =>
        obtain ⟨msg, u, w3⟩ := y
        have hw3 := (invoke_world _ _ _ _ _ _ _ _ h2).1
        simp only [h2, Option.some.injEq, Prod.mk.injEq] at h
        obtain ⟨rfl, _, rfl⟩ := h
        simp [World.printf, hw3, hw2, hr]
    · rw [if_neg hr] at h
      simp only [Option.some.injEq, Prod.mk.injEq] at h
      obtain ⟨rfl, _, rfl⟩ := h
      simp [hw2, hr]

/-- A run whose device-count query fails. -/
theorem nvgpu_get_info_count_failed {σ : Type} {nvmlfuncs : nvml_functions_t σ}
    (hsd : (nvmlfuncs.funcs nvmlShutdown).isSome = true)
    (nvgpu_info : nvgpu_info_t) (w w1 w2 w3 w4 w5 : World σ) (r1 r2 r3 ret : nvmlReturn_t)
    (nvml_version driver_version : String) (cuda_version : Int) (device_count : Nat)
    (h0 : invoke nvmlInit (nvmlfuncs.funcs nvmlInit) () () w = some (NVML_SUCCESS, (), w1))
    (h1 : NVML_CALL nvmlfuncs nvmlSystemGetNVMLVersion
      (nvmlfuncs.funcs nvmlSystemGetNVMLVersion) 256 nvgpu_info.nvml_version w1
        = some (r1, nvml_version, w2))
    (h2 : NVML_CALL nvmlfuncs nvmlSystemGetDriverVersion
      (nvmlfuncs.funcs nvmlSystemGetDriverVersion) 256 nvgpu_info.driver_version w2
        = some (r2, driver_version, w3))
    (h3 : NVML_CALL nvmlfuncs nvmlSystemGetCudaDriverVersion
      (nvmlfuncs.funcs nvmlSystemGetCudaDriverVersion) () nvgpu_info.cuda_version w3
        = some (r3, cuda_version, w4))
    (h4 : NVML_CALL nvmlfuncs nvmlDeviceGetCount
      (nvmlfuncs.funcs nvmlDeviceGetCount) () 0 w4 = some (ret, device_count, w5))
    (hret : ret ≠ NVML_SUCCESS) :
    ∃ rs w6, invoke nvmlShutdown (nvmlfuncs.funcs nvmlShutdown) () () w5 = some (rs, (), w6) ∧
      nvgpu_get_info nvmlfuncs nvgpu_info w =
        some (ret, ⟨driver_version, nvml_version, cuda_version, nvgpu_info.devinfos⟩, w6) := by
  obtain ⟨rs, u, w6, h5⟩ := invoke_defined nvmlShutdown (nvmlfuncs.funcs nvmlShutdown) hsd () () w5
  refine ⟨rs, w6, h5, ?_⟩
  rw [nvgpu_get_info_session nvgpu_info w w1 w2 w3 w4 w5 r1 r2 r3 ret nvml_version
    driver_version cuda_version device_count h0 h1 h2 h3 h4, if_neg hret]
  simp only [h5]

theorem HOOK_FUNC_funcs {σ : Type} (dl : dl_t σ) (hooks : nvml_hook_funcs) (lib : dl_handle)
    (t : nvml_functions_t σ) (e : hook_func) :
    (HOOK_FUNC dl hooks lib t e).funcs = Function.update t.funcs e (hook_resolved dl hooks lib e) := by
  unfold HOOK_FUNC hook_resolved nvml_functions_t.assign
  cases h : dl.dlsym lib e with
  | none => simp
  | some f => simp

theorem HOOK_FUNC_libnvml {σ : Type} (dl : dl_t σ) (hooks : nvml_hook_funcs) (lib : dl_handle)
    (t : nvml_functions_t σ) (e : hook_func) : (HOOK_FUNC dl hooks lib t e).libnvml = t.libnvml := by
  unfold HOOK_FUNC nvml_functions_t.assign
  simp only
  split <;> rfl

theorem hook_resolved_isSome {σ : Type} (dl : dl_t σ) (hooks : nvml_hook_funcs) (lib : dl_handle)
    (e : hook_func) : (hook_resolved dl hooks lib e).isSome = true := by
  unfold hook_resolved
  cases dl.dlsym lib e <;> rfl

/-- The table after the `HOOK_FUNC` lines of a catalog: each entry of the catalog is
resolved, every other entry is as before. -/
theorem HOOK_FUNC_foldl_funcs {σ : Type} (dl : dl_t σ) (hooks : nvml_hook_funcs) (lib : dl_handle)
    (es : List hook_func) (t : nvml_functions_t σ) (e : hook_func) :
    (es.foldl (HOOK_FUNC dl hooks lib) t).funcs e =
      if e ∈ es then hook_resolved dl hooks lib e else t.funcs e := by
  induction es generalizing t with
  | nil => simp
  | cons a es ih =>
    rw [List.foldl_cons, ih]
    by_cases h : e ∈ es
    · simp [h]
    · by_cases ha : e = a
      · subst ha
        simp [h, HOOK_FUNC_funcs]
      · simp [h, ha, HOOK_FUNC_funcs, Function.update_noteq ha]

/-- A run of `nvml_functions_init` that returns `0` loaded a library `lib`, and its
table is the resolved catalog followed by the two `_v2` assignments. -/
theorem nvml_functions_init_eq {σ : Type} (dl : dl_t σ) (hooks : nvml_hook_funcs)
    (nvmlfuncs : nvml_functions_t σ) (w : World σ)
    (h : (nvml_functions_init dl hooks nvmlfuncs w).1 = 0) :
    ∃ lib,
      (if (dl.dlopen "libnvidia-ml.so.1").isNone then dl.dlopen "libnvidia-ml.so"
        else dl.dlopen "libnvidia-ml.so.1") = some lib ∧
      (nvml_functions_init dl hooks nvmlfuncs w).2.1.libnvml = some lib ∧
      (nvml_functions_init dl hooks nvmlfuncs w).2.1.funcs =
        (let t := hooks.entries.foldl (HOOK_FUNC dl hooks lib) nvmlfuncs
         let t := if (t.funcs nvmlInit_v2).isSome then t.assign nvmlInit (t.funcs nvmlInit_v2) else t
         if (t.funcs nvmlSystemGetCudaDriverVersion_v2).isSome then
           t.assign nvmlSystemGetCudaDriverVersion (t.funcs nvmlSystemGetCudaDriverVersion_v2)
         else t).funcs := by
  unfold nvml_functions_init at h ⊢
  simp only at h ⊢
  generalize (if (dl.dlopen "libnvidia-ml.so.1").isNone then dl.dlopen "libnvidia-ml.so"
        else dl.dlopen "libnvidia-ml.so.1") = opened at h ⊢
  cases opened with
  | none => simp at h
  | some lib => exact ⟨lib, rfl, rfl, rfl⟩

/-- After `nvml_functions_init` returns `0`, an entry of the catalog other than the two
legacy names holds what its `HOOK_FUNC` line resolved. -/
theorem nvml_functions_init_funcs {σ : Type} (dl : dl_t σ) (hooks : nvml_hook_funcs)
    (nvmlfuncs : nvml_functions_t σ) (w : World σ)
    (h : (nvml_functions_init dl hooks nvmlfuncs w).1 = 0) :
    ∃ lib, (nvml_functions_init dl hooks nvmlfuncs w).2.1.libnvml = some lib ∧
      (∀ e, e ∈ hooks.entries → e ≠ nvmlInit → e ≠ nvmlSystemGetCudaDriverVersion →
        (nvml_functions_init dl hooks nvmlfuncs w).2.1.funcs e = hook_resolved dl hooks lib e) ∧
      (nvmlInit_v2 ∈ hooks.entries →
        (nvml_functions_init dl hooks nvmlfuncs w).2.1.funcs nvmlInit
          = hook_resolved dl hooks lib nvmlInit_v2) ∧
      (nvmlSystemGetCudaDriverVersion_v2 ∈ hooks.entries →
        (nvml_functions_init dl hooks nvmlfuncs w).2.1.funcs nvmlSystemGetCudaDriverVersion
          = hook_resolved dl hooks lib nvmlSystemGetCudaDriverVersion_v2) := by
  obtain ⟨lib, _, hlib, hf⟩ := nvml_functions_init_eq dl hooks nvmlfuncs w h
  refine ⟨lib, hlib, ?_, ?_, ?_⟩
  · intro e he h1 h2
    rw [hf]
    simp only [nvml_functions_t.assign]
    split <;> split <;>
      simp [Function.update_noteq h1, Function.update_noteq h2, HOOK_FUNC_foldl_funcs, he]
  · intro hv
    rw [hf]
    have hs : ((hooks.entries.foldl (HOOK_FUNC dl hooks lib) nvmlfuncs).funcs nvmlInit_v2)
        = hook_resolved dl hooks lib nvmlInit_v2 := by
      simp [HOOK_FUNC_foldl_funcs, hv]
    simp only [nvml_functions_t.assign, hs, hook_resolved_isSome, if_true]
    split <;> simp [Function.update_noteq]
  · intro hv
    rw [hf]
    have hs : ((hooks.entries.foldl (HOOK_FUNC dl hooks lib) nvmlfuncs).funcs
        nvmlSystemGetCudaDriverVersion_v2)
        = hook_resolved dl hooks lib nvmlSystemGetCudaDriverVersion_v2 := by
      simp [HOOK_FUNC_foldl_funcs, hv]
    simp only [nvml_functions_t.assign]
    split <;> simp [Function.update_noteq, hs, hook_resolved_isSome]

/-! ## The mock library is walkable -/

theorem mock_functions_walkable (cfg : mock_cfg) (hx : cfg.exports = fun _ => true) :
    (mock_functions cfg).walkable := by
  obtain ⟨ex, a, b, c⟩ := cfg
  simp only at hx
  subst hx
  refine ⟨fun e => by cases e <;> rfl, ?_, ?_⟩
  · intro g hg dev s
    have h : (mock_functions ⟨fun _ => true, a, b, c⟩).funcs nvmlDeviceGetGraphicsRunningProcesses
        = some (mock_impl ⟨fun _ => true, a, b, c⟩ nvmlDeviceGetGraphicsRunningProcesses) := rfl
    rw [h] at hg
    injection hg with hg
    subst hg
    by_cases hd : dev = some 0 <;> simp [mock_impl, hd]
  · intro g hg dev s
    have h : (mock_functions ⟨fun _ => true, a, b, c⟩).funcs nvmlDeviceGetComputeRunningProcesses
        = some (mock_impl ⟨fun _ => true, a, b, c⟩ nvmlDeviceGetComputeRunningProcesses) := rfl
    rw [h] at hg
    injection hg with hg
    subst hg
    simp [mock_impl]

/-! ## The claims -/

/-- C1 (as amended): after `nvml_functions_init` returns 0 a library `lib` is loaded
and every entry of the catalog is non-null; for every catalog entry other than the
two legacy names `nvmlInit` and `nvmlSystemGetCudaDriverVersion` whose symbol `lib`
does not export, invoking the table entry returns the entry's designated status
`_reterr` and leaves the output parameters and the library state as they were; and
for a legacy name whose `_v2` entry is in the catalog and whose `_v2` symbol `lib`
exports, the table entry is the library's `_v2` implementation, whether or not
`lib` exports the legacy symbol. -/
theorem C1_table_entries_callable {σ : Type} (dl : dl_t σ) (hooks : nvml_hook_funcs)
    (nvmlfuncs : nvml_functions_t σ) (w : World σ)
    (h : (nvml_functions_init dl hooks nvmlfuncs w).1 = 0) :
    ∃ lib, (nvml_functions_init dl hooks nvmlfuncs w).2.1.libnvml = some lib ∧
      (∀ e, e ∈ hooks.entries →
        ((nvml_functions_init dl hooks nvmlfuncs w).2.1.funcs e).isSome = true) ∧
      (∀ e, e ∈ hooks.entries → e ≠ nvmlInit → e ≠ nvmlSystemGetCudaDriverVersion →
        (dl.dlsym lib e).isNone = true → ∀ i o w1,
          invoke e ((nvml_functions_init dl hooks nvmlfuncs w).2.1.funcs e) i o w1
            = some (hooks.reterr e, o, { w1 with calls := w1.calls ++ [e] })) ∧
      (nvmlInit_v2 ∈ hooks.entries → (dl.dlsym lib nvmlInit_v2).isSome = true →
        (nvml_functions_init dl hooks nvmlfuncs w).2.1.funcs nvmlInit
          = dl.dlsym lib nvmlInit_v2) ∧
      (nvmlSystemGetCudaDriverVersion_v2 ∈ hooks.entries →
        (dl.dlsym lib nvmlSystemGetCudaDriverVersion_v2).isSome = true →
        (nvml_functions_init dl hooks nvmlfuncs w).2.1.funcs nvmlSystemGetCudaDriverVersion
          = dl.dlsym lib nvmlSystemGetCudaDriverVersion_v2) := by
  obtain ⟨lib, hlib, hrest, hinit, hcuda⟩ := nvml_functions_init_funcs dl hooks nvmlfuncs w h
  obtain ⟨lib1, _, hlib1, hf⟩ := nvml_functions_init_eq dl hooks nvmlfuncs w h
  refine ⟨lib, hlib, ?_, ?_, ?_, ?_⟩
  · intro e he
    by_cases h1 : e = nvmlInit
    · subst h1
      rw [hf]
      simp only [nvml_functions_t.assign]
      split <;> split <;> simp_all [Function.update_noteq, HOOK_FUNC_foldl_funcs,
        hook_resolved_isSome]
    · by_cases h2 : e = nvmlSystemGetCudaDriverVersion
      · subst h2
        rw [hf]
        simp only [nvml_functions_t.assign]
        split <;> split <;> simp_all [Function.update_noteq, HOOK_FUNC_foldl_funcs,
          hook_resolved_isSome]
      · rw [hrest e he h1 h2]
        exact hook_resolved_isSome dl hooks lib e
  · intro e he h1 h2 hnone i o w1
    rw [hrest e he h1 h2]
    simp only [hook_resolved, Option.isNone_iff_eq_none.mp hnone]
    rfl
  · intro hv hsome
    rw [hinit hv]
    obtain ⟨f, hf1⟩ := Option.isSome_iff_exists.mp hsome
    simp only [hook_resolved, hf1]
  · intro hv hsome
    rw [hcuda hv]
    obtain ⟨f, hf1⟩ := Option.isSome_iff_exists.mp hsome
    simp only [hook_resolved, hf1]

/-- C1, witness: the table built from the mock library that exports no symbol has
every entry non-null, and its device-count entry returns the designated status 13
and leaves the caller's count 7 in place; and in the table built from the mock
library that exports `nvmlInit_v2` but not `nvmlInit`, the entry `nvmlInit` is the
library's `nvmlInit_v2`. -/
theorem C1_table_entries_callable_witness :
    (nvml_functions_init (mock_dl mock_bare) mock_hooks null_functions mock_world).1 = 0 ∧
    (∀ e, e ∈ mock_hooks.entries → ((mock_functions mock_bare).funcs e).isSome = true) ∧
    invoke nvmlDeviceGetCount ((mock_functions mock_bare).funcs nvmlDeviceGetCount) () 7 mock_world
      = some (13, 7, { mock_world with calls := [nvmlDeviceGetCount] }) ∧
    (nvml_functions_init (mock_dl mock_v2_only) mock_hooks null_functions mock_world).1 = 0 ∧
    (mock_functions mock_v2_only).funcs nvmlInit = (mock_dl mock_v2_only).dlsym 1 nvmlInit_v2 := by
  refine ⟨rfl, ?_, ?_, rfl, ?_⟩
  · exact (C1_table_entries_callable (mock_dl mock_bare) mock_hooks null_functions mock_world
      rfl).elim (fun _ hx => hx.2.1)
  · obtain ⟨lib, hlib, _, hstub, _⟩ :=
      C1_table_entries_callable (mock_dl mock_bare) mock_hooks null_functions mock_world rfl
    have h1 : lib = 1 := (Option.some.inj hlib).symm
    subst h1
    exact hstub nvmlDeviceGetCount (by decide) (by decide) (by decide) rfl () 7 mock_world
  · obtain ⟨lib, hlib, _, _, hv2, _⟩ :=
      C1_table_entries_callable (mock_dl mock_v2_only) mock_hooks null_functions mock_world rfl
    have h1 : lib = 1 := (Option.some.inj hlib).symm
    subst h1
    exact hv2 (by decide) rfl

/-- C1, counterexample: the mock library that exports `nvmlInit_v2` but not `nvmlInit`
loads, `nvmlInit` is a catalog entry whose symbol the library does not export, and
invoking the table entry `nvmlInit` runs the library (its state goes from 0 to 1)
and returns status 0, not the designated status 13. -/
theorem C1_counterexample :
    (nvml_functions_init (mock_dl mock_v2_only) mock_hooks null_functions mock_world).1 = 0 ∧
    (mock_functions mock_v2_only).libnvml = some 1 ∧
    nvmlInit ∈ mock_hooks.entries ∧
    ((mock_dl mock_v2_only).dlsym 1 nvmlInit).isNone = true ∧
    mock_hooks.reterr nvmlInit = 13 ∧
    invoke nvmlInit ((mock_functions mock_v2_only).funcs nvmlInit) () () mock_world
      = some (0, (), { mock_world with lib := 1, calls := [nvmlInit] }) := by
  refine ⟨rfl, rfl, by decide, rfl, rfl, rfl⟩

/-- C2, the code at the failing input: the mock library exports `nvmlInit` (which
returns status 0 when called) but not `nvmlInit_v2`; after `nvml_functions_init`
returns 0 the table entry `nvmlInit` is not the library's `nvmlInit`: invoking it
returns the designated status 13 of `nvmlInit_v2` and leaves the library untouched,
and `nvgpu_get_info` through that table reports the session-init failure 13. -/
theorem C2_legacy_only_gets_null_substitute :
    (nvml_functions_init (mock_dl mock_legacy_only) mock_hooks null_functions mock_world).1 = 0 ∧
    (mock_functions mock_legacy_only).libnvml = some 1 ∧
    invoke nvmlInit ((mock_dl mock_legacy_only).dlsym 1 nvmlInit) () () mock_world
      = some (0, (), { mock_world with lib := 1, calls := [nvmlInit] }) ∧
    ((mock_dl mock_legacy_only).dlsym 1 nvmlInit_v2).isNone = true ∧
    mock_hooks.reterr nvmlInit_v2 = 13 ∧
    invoke nvmlInit ((mock_functions mock_legacy_only).funcs nvmlInit) () () mock_world
      = some (13, (), { mock_world with calls := [nvmlInit] }) ∧
    (nvgpu_get_info (mock_functions mock_legacy_only) nvgpu_info_t.fresh mock_world).map
      (fun r => (r.1, r.2.1)) = some (13, nvgpu_info_t.fresh) := by
  refine ⟨rfl, rfl, rfl, rfl, rfl, rfl, rfl⟩

/-- C9: `nvml_functions_shutdown` is idempotent.  A second call in a row changes
neither the table nor the world the first call left; the first call clears the
handle and leaves every function pointer as it was; over the two calls the library
is passed to `dlclose` exactly once if a library was loaded and never if none was;
and when no library is loaded the call changes nothing. -/
theorem C9_shutdown_idempotent {σ : Type} (nvmlfuncs : nvml_functions_t σ) (w : World σ) :
    nvml_functions_shutdown (nvml_functions_shutdown nvmlfuncs w).1
        (nvml_functions_shutdown nvmlfuncs w).2 = nvml_functions_shutdown nvmlfuncs w ∧
    (nvml_functions_shutdown nvmlfuncs w).1.libnvml = none ∧
    (nvml_functions_shutdown nvmlfuncs w).1.funcs = nvmlfuncs.funcs ∧
    (∀ lib, nvmlfuncs.libnvml = some lib →
      (nvml_functions_shutdown (nvml_functions_shutdown nvmlfuncs w).1
        (nvml_functions_shutdown nvmlfuncs w).2).2.dlcloses = w.dlcloses ++ [lib]) ∧
    (nvmlfuncs.libnvml = none →
      (nvml_functions_shutdown (nvml_functions_shutdown nvmlfuncs w).1
        (nvml_functions_shutdown nvmlfuncs w).2).2.dlcloses = w.dlcloses) ∧
    (nvmlfuncs.libnvml = none → nvml_functions_shutdown nvmlfuncs w = (nvmlfuncs, w)) := by
  unfold nvml_functions_shutdown
  cases h : nvmlfuncs.libnvml with
  | none => simp [h]
  | some lib => simp

/-- C9, witness: shutting down the table of the mock library twice passes its handle
to `dlclose` once. -/
theorem C9_shutdown_idempotent_witness :
    (mock_functions mock_full).libnvml = some 1 ∧
    (nvml_functions_shutdown (nvml_functions_shutdown (mock_functions mock_full) mock_world).1
      (nvml_functions_shutdown (mock_functions mock_full) mock_world).2).2.dlcloses = [1] :=
  ⟨rfl, (C9_shutdown_idempotent (mock_functions mock_full) mock_world).2.2.2.1 1 rfl⟩

/-- C5: when the session-init call fails with status `e`, `nvgpu_get_info` called on a
freshly constructed report returns exactly `e` and the report still freshly
constructed (both version strings empty, CUDA version 0, no devices), and the only
table entries it has called are `nvmlInit` and then `nvmlErrorString` for the
diagnostic: no version, device-count, device or process query, and no shutdown. -/
theorem C5_init_failure_empty_report {σ : Type} (nvmlfuncs : nvml_functions_t σ)
    (herr : (nvmlfuncs.funcs nvmlErrorString).isSome = true) (w w1 : World σ) (e : nvmlReturn_t)
    (h0 : invoke nvmlInit (nvmlfuncs.funcs nvmlInit) () () w = some (e, (), w1))
    (he : e ≠ NVML_SUCCESS) :
    ∃ w2, nvgpu_get_info nvmlfuncs nvgpu_info_t.fresh w = some (e, ⟨"", "", 0, []⟩, w2) ∧
      w2.calls = w.calls ++ [nvmlInit, nvmlErrorString] := by
  obtain ⟨msg, w2, _, hrun, hcalls, _⟩ :=
    nvgpu_get_info_init_failed herr nvgpu_info_t.fresh w w1 e h0 he
  refine ⟨_, hrun, ?_⟩
  have h1 := (invoke_world _ _ _ _ _ _ _ _ h0).1
  simp [World.printf, hcalls, h1]

/-- C5, witness: the mock library whose session init fails with status 3. -/
theorem C5_init_failure_empty_report_witness :
    ∃ w2, nvgpu_get_info (mock_functions mock_init_fails) nvgpu_info_t.fresh mock_world
        = some (3, ⟨"", "", 0, []⟩, w2) ∧
      w2.calls = mock_world.calls ++ [nvmlInit, nvmlErrorString] :=
  C5_init_failure_empty_report (mock_functions mock_init_fails) rfl mock_world
    ⟨1, [nvmlInit], [], []⟩ 3 rfl (by decide)

/-- C4: when session init succeeds and the device-count query fails with status `ret`,
`nvgpu_get_info` called on a freshly constructed report returns the failure status
`ret` and a report with no device, whose library-version, driver-version and
CUDA-version fields hold what the three version queries left in them. -/
theorem C4_count_failure_keeps_versions {σ : Type} (nvmlfuncs : nvml_functions_t σ)
    (hsd : (nvmlfuncs.funcs nvmlShutdown).isSome = true)
    (w w1 w2 w3 w4 w5 : World σ) (r1 r2 r3 ret : nvmlReturn_t)
    (nvml_version driver_version : String) (cuda_version : Int) (device_count : Nat)
    (h0 : invoke nvmlInit (nvmlfuncs.funcs nvmlInit) () () w = some (NVML_SUCCESS, (), w1))
    (h1 : NVML_CALL nvmlfuncs nvmlSystemGetNVMLVersion
      (nvmlfuncs.funcs nvmlSystemGetNVMLVersion) 256 "" w1 = some (r1, nvml_version, w2))
    (h2 : NVML_CALL nvmlfuncs nvmlSystemGetDriverVersion
      (nvmlfuncs.funcs nvmlSystemGetDriverVersion) 256 "" w2 = some (r2, driver_version, w3))
    (h3 : NVML_CALL nvmlfuncs nvmlSystemGetCudaDriverVersion
      (nvmlfuncs.funcs nvmlSystemGetCudaDriverVersion) () 0 w3 = some (r3, cuda_version, w4))
    (h4 : NVML_CALL nvmlfuncs nvmlDeviceGetCount
      (nvmlfuncs.funcs nvmlDeviceGetCount) () 0 w4 = some (ret, device_count, w5))
    (hret : ret ≠ NVML_SUCCESS) :
    ∃ w6, nvgpu_get_info nvmlfuncs nvgpu_info_t.fresh w =
        some (ret, ⟨driver_version, nvml_version, cuda_version, []⟩, w6) := by
  obtain ⟨rs, w6, _, hrun⟩ := nvgpu_get_info_count_failed hsd nvgpu_info_t.fresh w w1 w2 w3 w4 w5
    r1 r2 r3 ret nvml_version driver_version cuda_version device_count h0 h1 h2 h3 h4 hret
  exact ⟨w6, hrun⟩

/-- C4, witness: the mock library whose device-count query fails with status 3. -/
theorem C4_count_failure_keeps_versions_witness :
    ∃ w6, nvgpu_get_info (mock_functions mock_count_fails) nvgpu_info_t.fresh mock_world =
        some (3, ⟨"535.54", "12.535.54", 12020, []⟩, w6) :=
  C4_count_failure_keeps_versions (mock_functions mock_count_fails) rfl mock_world
    ⟨1, [nvmlInit], [], []⟩
    ⟨2, [nvmlInit, nvmlSystemGetNVMLVersion], [], []⟩
    ⟨3, [nvmlInit, nvmlSystemGetNVMLVersion, nvmlSystemGetDriverVersion], [], []⟩
    ⟨4, [nvmlInit, nvmlSystemGetNVMLVersion, nvmlSystemGetDriverVersion,
      nvmlSystemGetCudaDriverVersion], [], []⟩
    ⟨6, [nvmlInit, nvmlSystemGetNVMLVersion, nvmlSystemGetDriverVersion,
      nvmlSystemGetCudaDriverVersion, nvmlDeviceGetCount, nvmlErrorString],
      ["ERROR: nvmlDeviceGetCount failed (Unknown Error)\n"], []⟩
    0 0 0 3 "12.535.54" "535.54" 12020 0 rfl rfl rfl rfl rfl (by decide)

/-- C7 (as amended): for every device, `nvgpu_get_process_info` applied to an empty
destination list makes the graphics query when `doCompute` is false and the compute
query when it is true, on the 256-element array.  If that query fails the list
stays empty.  If it succeeds reporting `n` processes, with `n` at most 256 and every
reported process written, the list has exactly `n` entries, and entry `i` has the
pid and the memory of process `i` the library returned; its name is what the
by-pid name lookup left in the empty name buffer, that is the name returned when
the lookup succeeded, and empty when the lookup failed and a failing lookup does
not write the buffer.  A failed lookup alters neither pid nor memory nor any other
entry. -/
theorem C7_process_list {σ : Type} (nvmlfuncs : nvml_functions_t σ)
    (hc : nvmlfuncs.callable) (nvmldev : nvmlDevice_t) (doCompute : Bool) (w : World σ) :
    ∃ ret n infos w1,
      NVML_CALL nvmlfuncs
          (if doCompute then nvmlDeviceGetComputeRunningProcesses
            else nvmlDeviceGetGraphicsRunningProcesses)
          (if doCompute then nvmlfuncs.funcs nvmlDeviceGetComputeRunningProcesses
            else nvmlfuncs.funcs nvmlDeviceGetGraphicsRunningProcesses)
          nvmldev (256, []) w = some (ret, (n, infos), w1) ∧
      w1.calls = w.calls ++
        (if doCompute then nvmlDeviceGetComputeRunningProcesses
          else nvmlDeviceGetGraphicsRunningProcesses) ::
        (if ret ≠ NVML_SUCCESS then [nvmlErrorString] else []) ∧
      (ret ≠ NVML_SUCCESS →
        nvgpu_get_process_info nvmlfuncs nvmldev [] doCompute w = some ([], w1)) ∧
      (ret = NVML_SUCCESS → n ≤ 256 → n ≤ infos.length →
        ∃ dst w2, nvgpu_get_process_info nvmlfuncs nvmldev [] doCompute w = some (dst, w2) ∧
          dst.length = n ∧
          ∀ i (_ : i < n) (hl : i < infos.length), ∃ dsti wi r name wi1,
            for_loop (nvgpu_get_process_info_body nvmlfuncs infos) 0 i (vector_resize [] n, w1)
              = some (dsti, wi) ∧
            NVML_CALL nvmlfuncs nvmlSystemGetProcessName
              (nvmlfuncs.funcs nvmlSystemGetProcessName) ((infos[i]).pid, 80) "" wi
                = some (r, name, wi1) ∧
            dst[i]? = some ⟨name, (infos[i]).pid, (infos[i]).usedGpuMemory⟩ ∧
            (keeps_output_on_failure (nvmlfuncs.funcs nvmlSystemGetProcessName) →
              r ≠ NVML_SUCCESS → name = "")) := by
  obtain ⟨ret, n, infos, w1, hcall, _, hfail, hok⟩ :=
    nvgpu_get_process_info_spec hc nvmldev doCompute w
  refine ⟨ret, n, infos, w1, hcall, NVML_CALL_calls _ _ _ _ _ _ _ _ hcall,
    fun hr => hfail (Or.inl hr), ?_⟩
  intro hr h1 h2
  by_cases hn : n = 0
  · subst hn
    exact ⟨[], w1, hfail (Or.inr rfl), rfl, fun i hi => absurd hi (by omega)⟩
  · obtain ⟨⟨dst, w2⟩, hrun, _, hlen, _, _, hdone⟩ := hok hr hn h1 h2
    refine ⟨dst, w2, hrun, hlen, ?_⟩
    intro i hi hl
    obtain ⟨dm, wm, r, name, wm1, e1, e2, e3⟩ := hdone i hi hl
    exact ⟨dm, wm, r, name, wm1, e1, e2, e3,
      fun hk hret => NVML_CALL_keeps _ _ hk _ _ _ _ _ _ e2 hret⟩

/-- C7, witness: the graphics walk of the first device of the mock library: the
graphics query is made, and when it succeeds within the array the list has as many
entries as it reports. -/
theorem C7_process_list_witness :
    (mock_functions mock_full).callable ∧
    ∃ ret n infos w1,
      NVML_CALL (mock_functions mock_full) nvmlDeviceGetGraphicsRunningProcesses
        ((mock_functions mock_full).funcs nvmlDeviceGetGraphicsRunningProcesses)
        (some 0) (256, []) mock_world = some (ret, (n, infos), w1) ∧
      (ret = NVML_SUCCESS → n ≤ 256 → n ≤ infos.length →
        ∃ dst w2, nvgpu_get_process_info (mock_functions mock_full) (some 0) [] false mock_world
            = some (dst, w2) ∧ dst.length = n) := by
  refine ⟨(mock_functions_walkable mock_full rfl).1, ?_⟩
  obtain ⟨ret, n, infos, w1, hcall, _, _, hok⟩ :=
    C7_process_list (mock_functions mock_full) (mock_functions_walkable mock_full rfl).1
      (some 0) false mock_world
  refine ⟨ret, n, infos, w1, hcall, fun hr h1 h2 => ?_⟩
  obtain ⟨dst, w2, hrun, hlen, _⟩ := hok hr h1 h2
  exact ⟨dst, w2, hrun, hlen⟩

/-- C7, counterexample: through the table of the mock library whose failing queries
write their output, the name lookup of pid 42 fails (status 6, in every library
state), and yet the entry of pid 42 in the graphics list of the first device has the
name "junk", not the empty name. -/
theorem C7_counterexample :
    (∀ o s, ((mock_functions mock_writing).funcs nvmlSystemGetProcessName).map
      (fun g => (g (42, 80) o s).1) = some 6) ∧
    (nvgpu_get_process_info (mock_functions mock_writing) (some 0) [] false mock_world).map
      (fun r => r.1) = some [⟨"Xorg", 41, 100⟩, ⟨"junk", 42, 200⟩, ⟨"Xorg", 43, 300⟩] :=
  ⟨fun _ _ => rfl, rfl⟩

end NvmlInfo
